import Mathlib

/-
Verification development for the git-chat-assistant actor
(single Rust source file src/lib.rs).

The embedding models serde_json values as the inductive type Json,
host effects (spawn, send, shutdown) as explicit parameters recording
their outcomes, and serde deserialization results as Except values
supplied by the environment.  Byte vectors are List Nat.
-/

/-- Json models the serde_json Value type.  Numbers are represented as
rationals, which is adequate here because the program never computes
with them (temperature 0.7 and max_tokens 8192 are only stored). -/
inductive Json where
  | null
  | bool (b : Bool)
  | num (q : ℚ)
  | str (s : String)
  | arr (xs : List Json)
  | obj (fields : List (String × Json))

/-- Json.getField reads a field of a JSON object (Value::get on objects). -/
def Json.getField (j : Json) (key : String) : Option Json :=
  match j with
  | .obj fields => fields.lookup key
  | _ => none

/-- GitAssistantConfig mirrors the Rust struct of the same name: every
field optional, with a serde-flattened bag of unrecognized fields. -/
structure GitAssistantConfig where
  current_directory : Option String
  workflow : Option String
  model_config : Option Json
  temperature : Option ℚ
  max_tokens : Option Nat
  system_prompt : Option String
  title : Option String
  description : Option String
  mcp_servers : Option Json
  other : Json

/-- Default instance of GitAssistantConfig from the Rust Default impl. -/
def GitAssistantConfig.default : GitAssistantConfig :=
  { current_directory := none
    workflow := none
    model_config := none
    temperature := none
    max_tokens := none
    system_prompt := none
    title := none
    description := none
    mcp_servers := none
    other := Json.obj [] }

/-- GitChatState mirrors the Rust persisted actor state struct. -/
structure GitChatState where
  actor_id : String
  chat_state_actor_id : Option String
  original_config : Json
  current_directory : Option String
  workflow : Option String

/-- GitChatState.new mirrors the Rust constructor: the child id starts unset. -/
def GitChatState.new (actor_id : String) (config : Json)
    (current_directory : Option String) (workflow : Option String) : GitChatState :=
  { actor_id := actor_id
    chat_state_actor_id := none
    original_config := config
    current_directory := current_directory
    workflow := workflow }

/-- GitChatState.set_chat_state_actor_id mirrors the Rust setter. -/
def GitChatState.set_chat_state_actor_id (s : GitChatState) (chat_actor_id : String) :
    GitChatState :=
  { s with chat_state_actor_id := some chat_actor_id }

/-- GitChatState.get_chat_state_actor_id mirrors the Rust getter, which
errors when the child id is not yet set. -/
def GitChatState.get_chat_state_actor_id (s : GitChatState) : Except String String :=
  match s.chat_state_actor_id with
  | some id => .ok id
  | none => .error "Chat state actor not initialized"

/-- Workflow context block for the commit workflow, transcribed from the
Rust string literal (line continuations resolved). -/
def commitWorkflowContext : String :=
  "\n\nWORKFLOW: AUTOMATIC COMMIT\nYour primary task is to analyze the current repository state and create appropriate commits:\n1. First, check git status to see what files have changed\n2. Review the actual changes using git diff\n3. Stage appropriate files for commit\n4. Create meaningful, conventional commit messages\n5. Execute the commit\n\nFocus on creating clean, atomic commits with descriptive messages. If there are multiple logical changes, consider separate commits. Always explain what you\x27re doing and why."

/-- Workflow context block for the review workflow, transcribed from the
Rust string literal. -/
def reviewWorkflowContext : String :=
  "\n\nWORKFLOW: CODE REVIEW\nYour primary task is to review code changes and provide feedback:\n1. Check git status and diff to understand changes\n2. Analyze code quality, style, and potential issues\n3. Suggest improvements and optimizations\n4. Check for security vulnerabilities or bugs\n5. Provide constructive feedback\n\nFocus on helping improve code quality while being constructive and educational."

/-- Workflow context block for the rebase workflow, transcribed from the
Rust string literal. -/
def rebaseWorkflowContext : String :=
  "\n\nWORKFLOW: INTERACTIVE REBASE\nYour primary task is to help with git rebase operations:\n1. Understand the current branch state and history\n2. Help plan rebase strategies\n3. Assist with conflict resolution\n4. Guide through interactive rebase steps\n5. Ensure clean, linear history\n\nFocus on maintaining a clean git history while preserving important changes."

/-- Directory context string, the local directory_context computation of
create_git_optimized_config hoisted to a named definition. -/
def directoryContext : Option String → String
  | some dir =>
      "\n\nCURRENT WORKING DIRECTORY: " ++ dir ++ "\nWhen using git tools, operate within this directory unless explicitly told otherwise. This is the repository you should focus on for all git operations."
  | none => ""

/-- Workflow context string, the local workflow_context computation of
create_git_optimized_config hoisted to a named definition: exact string
match against commit, review, rebase; anything else is the empty block. -/
def workflowContext : Option String → String
  | some "commit" => commitWorkflowContext
  | some "review" => reviewWorkflowContext
  | some "rebase" => rebaseWorkflowContext
  | some _ => ""
  | none => ""

/-- Fixed default git-assistant prompt text, the body of the Rust format
string before the directory and workflow blocks are appended. -/
def defaultGitSystemPromptBase : String :=
  "You are a Git assistant with access to git tools. You can help with:\n\n- Reviewing git status and changes\n- Creating meaningful commit messages\n- Managing branches and repositories\n- Analyzing git history and diffs\n- Staging and unstaging files\n- Handling merge conflicts\n- Git workflow best practices\n\nYou have access to git tools that allow you to interact with the repository. Always be helpful and provide clear explanations of git operations.\n\nWhen helping with commits:\n- Always review the changes first before suggesting commit messages\n- Create descriptive, conventional commit messages\n- Suggest appropriate files to stage if not already staged\n- Explain the impact of changes when relevant"

/-- Default model configuration object from the source. -/
def defaultModelConfig : Json :=
  Json.obj [("model", Json.str "claude-sonnet-4-20250514"),
            ("provider", Json.str "anthropic")]

/-- Git-tool MCP server descriptor from the default mcp_servers literal. -/
def gitToolServerJson : Json :=
  Json.obj [("actor_id", Json.null),
            ("actor", Json.obj [("manifest_path", Json.str "/Users/colinrozzi/work/actor-registry/git-mcp-actor/manifest.toml")]),
            ("tools", Json.null)]

/-- Task-monitor MCP server descriptor from the default mcp_servers
literal, parameterized with the management actor id. -/
def taskMonitorServerJson (self_id : String) : Json :=
  Json.obj [("actor_id", Json.null),
            ("actor", Json.obj [("manifest_path", Json.str "/Users/colinrozzi/work/actor-registry/task-monitor-mcp-actor/manifest.toml")]),
            ("config", Json.obj [("management_actor", Json.str self_id)]),
            ("tools", Json.null)]

/-- Final merge step of create_git_optimized_config: every key of the
flattened bag that is not already a key of the fixed object is appended;
colliding keys are dropped. -/
def mergeOther (final_config : Json) (other : Json) : Json :=
  match final_config, other with
  | .obj obj, .obj other_map =>
      .obj (other_map.foldl
        (fun acc kv => if (acc.lookup kv.1).isSome then acc else acc ++ [kv]) obj)
  | j, _ => j

/-- Lean translation of create_git_optimized_config from src/lib.rs.
Deterministic and total: absent fields fall back to fixed defaults. -/
def create_git_optimized_config (self_id : String)
    (current_directory : Option String) (config : GitAssistantConfig) : Json :=
  let directory_context := directoryContext current_directory
  let workflow_context := workflowContext config.workflow
  let default_git_system_prompt :=
    defaultGitSystemPromptBase ++ directory_context ++ workflow_context
  let final_system_prompt :=
    match config.system_prompt with
    | some custom_prompt => custom_prompt ++ directory_context ++ workflow_context
    | none => default_git_system_prompt
  let default_mcp_servers :=
    Json.arr [gitToolServerJson, taskMonitorServerJson self_id]
  let model_config := config.model_config.getD defaultModelConfig
  let temperature := config.temperature.getD (0.7 : ℚ)
  let max_tokens := config.max_tokens.getD 8192
  let title := config.title.getD "Git Assistant"
  let description := config.description.getD
    "AI assistant with git tools for repository management and commit workflows"
  let mcp_servers := config.mcp_servers.getD default_mcp_servers
  let final_config :=
    Json.obj [("model_config", model_config),
              ("temperature", Json.num temperature),
              ("max_tokens", Json.num (max_tokens : ℚ)),
              ("system_prompt", Json.str final_system_prompt),
              ("title", Json.str title),
              ("description", Json.str description),
              ("mcp_servers", mcp_servers)]
  mergeOther final_config config.other

/-- Decidable check that a JSON value is a list containing the git-tool
server descriptor (identified by its manifest path, as in the source). -/
def includesGitToolServer (j : Json) : Bool :=
  match j with
  | .arr servers =>
      servers.any (fun s =>
        match s.getField "actor" with
        | some a =>
            match a.getField "manifest_path" with
            | some (.str p) =>
                p == "/Users/colinrozzi/work/actor-registry/git-mcp-actor/manifest.toml"
            | _ => false
        | _ => false)
  | _ => false

/-- Role of a chat message, the part of the external genai_types crate
used by the source (Role::User is the only constructor referenced). -/
inductive Role where
  | user
  | assistant

/-- Message content blocks, the part of the external genai_types crate
used by the source (MessageContent::Text is the only constructor used). -/
inductive MessageContent where
  | text (text : String)

/-- Chat message from the external genai_types crate. -/
structure Message where
  role : Role
  content : List MessageContent

/-- Modelled from the spec: the outbound envelope enum ChatStateRequest of
src/protocol.rs, which is not under src/.  The spec lists exactly the
fire-and-forget envelopes AddMessage with a message and GenerateCompletion,
matching the two constructors lib.rs uses. -/
inductive ChatStateRequest where
  | AddMessage (message : Message)
  | GenerateCompletion

/-- Inbound request protocol enum GitChatRequest from src/lib.rs. -/
inductive GitChatRequest where
  | GetChatStateActorId
  | AddMessage (message : Message)
  | StartChat

/-- Outbound response protocol enum GitChatResponse from src/lib.rs. -/
inductive GitChatResponse where
  | ChatStateActorId (actor_id : String)
  | Success
  | Error (message : String)

/-- Result of one handle_request invocation: the re-persisted state (none
models returning an absent state), the serialized response, and the list
of sends issued to the child, in order, as target id and envelope pairs.
Each listed forward is a send that was attempted. -/
structure HandleResult where
  state : Option GitChatState
  response : GitChatResponse
  forwards : List (String × ChatStateRequest)

/-- Fixed synthesized instructional user message of the commit workflow
auto-initiation, transcribed from the source. -/
def autoCommitMessage : Message :=
  { role := .user
    content := [MessageContent.text "Please analyze the current repository state and commit any pending changes with appropriate commit messages. Start by checking git status to see what files have changed."] }

/-- Lean translation of handle_request from src/lib.rs.  The host send
primitive is modelled by env, giving the outcome of the n-th send call of
this invocation; deserialization results of the incoming state bytes and
request bytes are supplied as Except values.  Paths the source exits with
Ok are Except.ok here; Except.error would be a hard actor failure (in the
source only unreachable response-serialization failures take it). -/
def handle_request (env : Nat → Except String Unit)
    (state : Option (Except String GitChatState))
    (request : Except String GitChatRequest) : Except String HandleResult :=
  match state with
  | none =>
      .ok { state := none, response := .Error "No state available", forwards := [] }
  | some (.error e) =>
      .ok { state := none
            response := .Error ("Failed to deserialize git state: " ++ e)
            forwards := [] }
  | some (.ok git_state) =>
    match request with
    | .error e =>
        .ok { state := some git_state
              response := .Error ("Failed to parse request: " ++ e)
              forwards := [] }
    | .ok req =>
      match req with
      | .StartChat =>
        match git_state.workflow with
        | some workflow =>
          if workflow == "commit" then
            match git_state.get_chat_state_actor_id with
            | .ok chat_actor_id =>
              let auto_message := ChatStateRequest.AddMessage autoCommitMessage
              match env 0 with
              | .ok _ =>
                match env 1 with
                | .ok _ =>
                    .ok { state := some git_state
                          response := .Success
                          forwards := [(chat_actor_id, auto_message),
                                       (chat_actor_id, .GenerateCompletion)] }
                | .error e =>
                    .ok { state := some git_state
                          response := .Error ("Failed to send auto generation request: " ++ e)
                          forwards := [(chat_actor_id, auto_message),
                                       (chat_actor_id, .GenerateCompletion)] }
              | .error e =>
                  .ok { state := some git_state
                        response := .Error ("Failed to send auto commit message: " ++ e)
                        forwards := [(chat_actor_id, auto_message)] }
            | .error e =>
                .ok { state := some git_state
                      response := .Error ("Chat state actor not available for auto workflow: " ++ e)
                      forwards := [] }
          else
            .ok { state := some git_state, response := .Success, forwards := [] }
        | none =>
            .ok { state := some git_state, response := .Success, forwards := [] }
      | .GetChatStateActorId =>
        match git_state.get_chat_state_actor_id with
        | .ok actor_id =>
            .ok { state := some git_state
                  response := .ChatStateActorId actor_id
                  forwards := [] }
        | .error e =>
            .ok { state := some git_state, response := .Error e, forwards := [] }
      | .AddMessage message =>
        match git_state.get_chat_state_actor_id with
        | .ok chat_actor_id =>
          match env 0 with
          | .ok _ =>
            match env 1 with
            | .ok _ =>
                .ok { state := some git_state
                      response := .Success
                      forwards := [(chat_actor_id, .AddMessage message),
                                   (chat_actor_id, .GenerateCompletion)] }
            | .error e =>
                .ok { state := some git_state
                      response := .Error ("Failed to send generation request: " ++ e)
                      forwards := [(chat_actor_id, .AddMessage message),
                                   (chat_actor_id, .GenerateCompletion)] }
          | .error e =>
              .ok { state := some git_state
                    response := .Error ("Failed to forward message: " ++ e)
                    forwards := [(chat_actor_id, .AddMessage message)] }
        | .error e =>
            .ok { state := some git_state, response := .Error e, forwards := [] }

/-- Lean translation of handle_send from src/lib.rs.  The incoming state
bytes are supplied as the result of deserializing them as Vec of u8
(a JSON byte array); parseTaskComplete is the serde decoder for the
TaskComplete unit struct applied to those inner bytes; the second
parameter is the incoming message payload, which the source never reads.
The Bool result records whether the host shutdown primitive was invoked;
the Except result is the handler return value with the re-persisted state. -/
def handle_send (state : Option (Except String (List Nat)))
    (parseTaskComplete : List Nat → Except String Unit)
    (_params : List Nat) : Bool × Except String (Option (List Nat)) :=
  match state with
  | some parsed =>
    match parsed with
    | .ok parsed_state =>
      match parseTaskComplete parsed_state with
      | .ok _ => (true, .ok (some parsed_state))
      | .error e => (false, .error ("Failed to parse message: " ++ e))
    | .error e => (false, .error ("Failed to deserialize state: " ++ e))
  | none => (false, .error "No state available")

/-- Fixed manifest reference of the child conversation-state actor. -/
def chatStateManifestPath : String :=
  "/Users/colinrozzi/work/actor-registry/chat-state/manifest.toml"

/-- Lean translation of spawn_chat_state_actor from src/lib.rs.  The host
spawn primitive is modelled by spawnFn from manifest path and initial
state payload to the spawn outcome. -/
def spawn_chat_state_actor (spawnFn : String → Json → Except String String)
    (chat_config : Json) : Except String String :=
  let initial_state := Json.obj [("config", chat_config)]
  match spawnFn chatStateManifestPath initial_state with
  | .ok actor_id => .ok actor_id
  | .error e => .error ("Spawn failed: " ++ e)

/-- Lean translation of init from src/lib.rs.  The optional initial
payload is supplied as the result of deserializing it as a
GitAssistantConfig; a parse failure falls back to the default
configuration, exactly as in the source.  Returns the persisted state on
success and an initialization error when the child spawn fails. -/
def init (spawnFn : String → Json → Except String String)
    (state : Option (Except String GitAssistantConfig))
    (self_id : String) : Except String (Option GitChatState) :=
  let parsed :=
    match state with
    | some (.ok config) =>
        (create_git_optimized_config self_id config.current_directory config,
         config.current_directory, config.workflow)
    | some (.error _) =>
        (create_git_optimized_config self_id none GitAssistantConfig.default,
         none, none)
    | none =>
        (create_git_optimized_config self_id none GitAssistantConfig.default,
         none, none)
  let git_state := GitChatState.new self_id parsed.1 parsed.2.1 parsed.2.2
  match spawn_chat_state_actor spawnFn parsed.1 with
  | .ok chat_actor_id =>
      let git_state := git_state.set_chat_state_actor_id chat_actor_id
      .ok (some git_state)
  | .error e => .error ("Failed to spawn chat state actor: " ++ e)

/-- Supervisor callback handle_child_error from src/lib.rs: logs and
passes the raw state bytes through unchanged. -/
def handle_child_error (state : Option (List Nat)) (_child_id : String)
    (_error : String) : Except String (Option (List Nat)) :=
  .ok state

/-- Supervisor callback handle_child_exit from src/lib.rs: logs and
passes the raw state bytes through unchanged. -/
def handle_child_exit (state : Option (List Nat)) (_child_id : String)
    (_exit_state : Option (List Nat)) : Except String (Option (List Nat)) :=
  .ok state

/-- Channel accept record from the host interface. -/
structure ChannelAccept where
  accepted : Bool
  message : Option (List Nat)

/-- Channel open handler from src/lib.rs: unconditionally accepts and
passes the raw state bytes through unchanged. -/
def handle_channel_open (state : Option (List Nat))
    (_params : String × List Nat) :
    Except String (Option (List Nat) × ChannelAccept) :=
  .ok (state, { accepted := true, message := none })

/-- Channel close handler from src/lib.rs: logs only. -/
def handle_channel_close (state : Option (List Nat)) (_channel_id : String) :
    Except String (Option (List Nat)) :=
  .ok state

/-- Channel message handler from src/lib.rs: logs only. -/
def handle_channel_message (state : Option (List Nat))
    (_params : String × List Nat) :
    Except String (Option (List Nat)) :=
  .ok state

/-- Serialization of the TaskComplete unit struct as message payload
bytes: serde_json serializes a unit struct as the four bytes of null. -/
def taskCompleteBytes : List Nat := [110, 117, 108, 108]

/-- Lookup in an association list is unchanged by appending entries on
the right when the key is already bound. -/
theorem lookup_append_some (l₁ l₂ : List (String × Json)) (k : String) (v : Json)
    (h : l₁.lookup k = some v) : (l₁ ++ l₂).lookup k = some v := by
  induction l₁ with
  | nil => simp [List.lookup] at h
  | cons hd tl ih =>
    obtain ⟨k₁, v₁⟩ := hd
    rw [List.cons_append]
    cases hbeq : k == k₁ with
    | true =>
        simp only [List.lookup, hbeq] at h ⊢
        exact h
    | false =>
        simp only [List.lookup, hbeq] at h ⊢
        exact ih h

/-- The passthrough fold of mergeOther never changes the binding of a key
that is already present in the accumulator. -/
theorem lookup_foldl_merge (l : List (String × Json)) (acc : List (String × Json))
    (k : String) (v : Json) (h : acc.lookup k = some v) :
    (l.foldl (fun acc kv => if (acc.lookup kv.1).isSome then acc else acc ++ [kv])
        acc).lookup k = some v := by
  induction l generalizing acc with
  | nil => exact h
  | cons hd tl ih =>
    rw [List.foldl_cons]
    apply ih
    by_cases hc : (acc.lookup hd.1).isSome = true
    · simpa [hc] using h
    · simp only [Bool.not_eq_true] at hc
      simp only [hc, Bool.false_eq_true, if_false]
      exact lookup_append_some acc [hd] k v h

/-- Fixed keys of the canonical configuration survive the passthrough
merge with their original values: fixed keys always win. -/
theorem getField_merge (fs : List (String × Json)) (other : Json) (k : String) (v : Json)
    (h : fs.lookup k = some v) : (mergeOther (Json.obj fs) other).getField k = some v := by
  cases other with
  | obj other_map =>
      simp only [mergeOther, Json.getField]
      exact lookup_foldl_merge other_map fs k v h
  | null => exact h
  | bool b => exact h
  | num q => exact h
  | str s => exact h
  | arr xs => exact h

/-- Workflow dispatch characterized as an if chain over exact string
equality with the closed set of recognized workflow tags. -/
theorem workflowContext_eq (w : Option String) :
    workflowContext w =
      (if w = some "commit" then commitWorkflowContext
       else if w = some "review" then reviewWorkflowContext
       else if w = some "rebase" then rebaseWorkflowContext
       else "") := by
  rcases w with _ | w
  · simp [workflowContext]
  · by_cases h1 : w = "commit"
    · subst h1; simp [workflowContext]
    · by_cases h2 : w = "review"
      · subst h2; simp [workflowContext]
      · by_cases h3 : w = "rebase"
        · subst h3; simp [workflowContext]
        · simp [workflowContext, h1, h2, h3]

/-- Directory block is never empty when a directory is supplied. -/
theorem directoryContext_ne_empty (dir : String) : directoryContext (some dir) ≠ "" := by
  intro h
  simp only [directoryContext] at h
  have hl := congrArg String.length h
  simp [String.length_append] at hl
  exact absurd hl.1.1 (by decide)

/-- C1: for every input configuration, the composed configuration has
system_prompt equal to base ++ directory block ++ workflow block in that
order, where the base is the supplied system_prompt when present (kept in
full) and the fixed default git-assistant prompt otherwise; the directory
block is non-empty iff current_directory is present; and the workflow
block is chosen by exact string match against commit, review, rebase,
every other value (including absent) giving the empty block.  The
function is total, so no input is an error. -/
theorem C1_system_prompt_composition (self_id : String) (config : GitAssistantConfig) :
    (create_git_optimized_config self_id config.current_directory config).getField "system_prompt"
      = some (Json.str (config.system_prompt.getD defaultGitSystemPromptBase
          ++ directoryContext config.current_directory
          ++ workflowContext config.workflow))
    ∧ (directoryContext config.current_directory ≠ "" ↔ config.current_directory.isSome = true)
    ∧ workflowContext config.workflow
        = (if config.workflow = some "commit" then commitWorkflowContext
           else if config.workflow = some "review" then reviewWorkflowContext
           else if config.workflow = some "rebase" then rebaseWorkflowContext
           else "") := by
  refine ⟨?_, ?_, workflowContext_eq config.workflow⟩
  · simp only [create_git_optimized_config]
    apply getField_merge
    cases config.system_prompt <;> rfl
  · cases hcd : config.current_directory with
    | none => simp [directoryContext]
    | some dir => simp [directoryContext_ne_empty dir]

/-- C5 counterexample: an input that supplies mcp_servers as the empty
list yields a composed configuration whose mcp_servers is that empty
list, which does not include the git-tool server descriptor; so the
composed mcp_servers does not always include the git-tool server. -/
theorem C5_mcp_servers_counterexample :
    ((create_git_optimized_config "self-1" none
        { GitAssistantConfig.default with mcp_servers := some (Json.arr []) }).getField
          "mcp_servers" = some (Json.arr []))
    ∧ includesGitToolServer (Json.arr []) = false :=
  ⟨rfl, rfl⟩

/-- C5 amended: the composed configuration uses the supplied mcp_servers
verbatim with no merge when present (so it need not include the git-tool
server); when absent, the synthesized default list contains the git-tool
server descriptor and a task-monitor server descriptor whose
management_actor configuration equals self_id. -/
theorem C5_mcp_servers_amended (self_id : String) (cd : Option String)
    (config : GitAssistantConfig) :
    (create_git_optimized_config self_id cd config).getField "mcp_servers"
      = some (match config.mcp_servers with
              | some v => v
              | none => Json.arr [gitToolServerJson, taskMonitorServerJson self_id])
    ∧ includesGitToolServer (Json.arr [gitToolServerJson, taskMonitorServerJson self_id]) = true
    ∧ (taskMonitorServerJson self_id).getField "config"
        = some (Json.obj [("management_actor", Json.str self_id)]) := by
  refine ⟨?_, rfl, rfl⟩
  simp only [create_git_optimized_config]
  apply getField_merge
  cases config.mcp_servers <;> rfl

/-- C2: on a state with workflow commit and the child id set, StartChat
forwards exactly two messages in order, the fixed synthesized AddMessage
envelope then GenerateCompletion, and responds Success when both sends
succeed; on a state with any other workflow value or none, StartChat
forwards nothing and responds Success. -/
theorem C2_start_chat_commit_auto_initiation (env : Nat → Except String Unit)
    (st : GitChatState) :
    (∀ cid, st.workflow = some "commit" → st.chat_state_actor_id = some cid →
       env 0 = .ok () → env 1 = .ok () →
       handle_request env (some (.ok st)) (.ok .StartChat)
         = .ok { state := some st
                 response := .Success
                 forwards := [(cid, .AddMessage autoCommitMessage),
                              (cid, .GenerateCompletion)] })
    ∧ (st.workflow = none →
       handle_request env (some (.ok st)) (.ok .StartChat)
         = .ok { state := some st, response := .Success, forwards := [] })
    ∧ (∀ w, st.workflow = some w → w ≠ "commit" →
       handle_request env (some (.ok st)) (.ok .StartChat)
         = .ok { state := some st, response := .Success, forwards := [] }) := by
  refine ⟨?_, ?_, ?_⟩
  · intro cid hw hc h0 h1
    simp [handle_request, hw, GitChatState.get_chat_state_actor_id, hc, h0, h1]
  · intro hw
    simp [handle_request, hw]
  · intro w hw hne
    simp [handle_request, hw, hne]

/-- C2 witness at concrete inputs: a commit-workflow state with child id
chat-1 and both sends succeeding, and a review-workflow state. -/
theorem C2_start_chat_commit_auto_initiation_witness :
    handle_request (fun _ => .ok ())
        (some (.ok (⟨"self-1", some "chat-1", Json.null, none, some "commit"⟩ : GitChatState)))
        (.ok .StartChat)
      = .ok { state := some ⟨"self-1", some "chat-1", Json.null, none, some "commit"⟩
              response := .Success
              forwards := [("chat-1", .AddMessage autoCommitMessage),
                           ("chat-1", .GenerateCompletion)] }
    ∧ handle_request (fun _ => .ok ())
        (some (.ok (⟨"self-1", some "chat-1", Json.null, none, some "review"⟩ : GitChatState)))
        (.ok .StartChat)
      = .ok { state := some ⟨"self-1", some "chat-1", Json.null, none, some "review"⟩
              response := .Success
              forwards := [] } :=
  ⟨(C2_start_chat_commit_auto_initiation (fun _ => .ok ())
      ⟨"self-1", some "chat-1", Json.null, none, some "commit"⟩).1 "chat-1" rfl rfl rfl rfl,
   (C2_start_chat_commit_auto_initiation (fun _ => .ok ())
      ⟨"self-1", some "chat-1", Json.null, none, some "review"⟩).2.2 "review" rfl (by decide)⟩

/-- C3: an AddMessage request on a state with no child id responds Error
and forwards nothing; with the child id set, the AddMessage envelope is
attempted first and GenerateCompletion second, the response is Success
exactly when both sends succeed, a failing first send short-circuits so
the second is never attempted and the response carries the first cause,
and a failing second send yields Error with its cause. -/
theorem C3_add_message_forwarding (env : Nat → Except String Unit)
    (st : GitChatState) (message : Message) :
    (st.chat_state_actor_id = none →
       handle_request env (some (.ok st)) (.ok (.AddMessage message))
         = .ok { state := some st
                 response := .Error "Chat state actor not initialized"
                 forwards := [] })
    ∧ (∀ cid, st.chat_state_actor_id = some cid →
       (env 0 = .ok () → env 1 = .ok () →
          handle_request env (some (.ok st)) (.ok (.AddMessage message))
            = .ok { state := some st
                    response := .Success
                    forwards := [(cid, .AddMessage message),
                                 (cid, .GenerateCompletion)] })
       ∧ (∀ e, env 0 = .error e →
          handle_request env (some (.ok st)) (.ok (.AddMessage message))
            = .ok { state := some st
                    response := .Error ("Failed to forward message: " ++ e)
                    forwards := [(cid, .AddMessage message)] })
       ∧ (∀ e, env 0 = .ok () → env 1 = .error e →
          handle_request env (some (.ok st)) (.ok (.AddMessage message))
            = .ok { state := some st
                    response := .Error ("Failed to send generation request: " ++ e)
                    forwards := [(cid, .AddMessage message),
                                 (cid, .GenerateCompletion)] })) := by
  refine ⟨?_, fun cid hc => ⟨?_, ?_, ?_⟩⟩
  · intro hc
    simp [handle_request, GitChatState.get_chat_state_actor_id, hc]
  · intro h0 h1
    simp [handle_request, GitChatState.get_chat_state_actor_id, hc, h0, h1]
  · intro e h0
    simp [handle_request, GitChatState.get_chat_state_actor_id, hc, h0]
  · intro e h0 h1
    simp [handle_request, GitChatState.get_chat_state_actor_id, hc, h0, h1]

/-- C3 witness at concrete inputs: a state with no child id, a first-send
failure, and a fully successful pair of sends. -/
theorem C3_add_message_forwarding_witness :
    handle_request (fun _ => .ok ())
        (some (.ok (⟨"self-1", none, Json.null, none, none⟩ : GitChatState)))
        (.ok (.AddMessage ⟨.user, [MessageContent.text "hi"]⟩))
      = .ok { state := some ⟨"self-1", none, Json.null, none, none⟩
              response := .Error "Chat state actor not initialized"
              forwards := [] }
    ∧ handle_request (fun n => if n = 0 then .error "boom" else .ok ())
        (some (.ok (⟨"self-1", some "chat-1", Json.null, none, none⟩ : GitChatState)))
        (.ok (.AddMessage ⟨.user, [MessageContent.text "hi"]⟩))
      = .ok { state := some ⟨"self-1", some "chat-1", Json.null, none, none⟩
              response := .Error "Failed to forward message: boom"
              forwards := [("chat-1", .AddMessage ⟨.user, [MessageContent.text "hi"]⟩)] }
    ∧ handle_request (fun _ => .ok ())
        (some (.ok (⟨"self-1", some "chat-1", Json.null, none, none⟩ : GitChatState)))
        (.ok (.AddMessage ⟨.user, [MessageContent.text "hi"]⟩))
      = .ok { state := some ⟨"self-1", some "chat-1", Json.null, none, none⟩
              response := .Success
              forwards := [("chat-1", .AddMessage ⟨.user, [MessageContent.text "hi"]⟩),
                           ("chat-1", .GenerateCompletion)] } :=
  ⟨(C3_add_message_forwarding (fun _ => .ok ())
      ⟨"self-1", none, Json.null, none, none⟩ ⟨.user, [MessageContent.text "hi"]⟩).1 rfl,
   ((C3_add_message_forwarding (fun n => if n = 0 then .error "boom" else .ok ())
      ⟨"self-1", some "chat-1", Json.null, none, none⟩
      ⟨.user, [MessageContent.text "hi"]⟩).2 "chat-1" rfl).2.1 "boom" rfl,
   ((C3_add_message_forwarding (fun _ => .ok ())
      ⟨"self-1", some "chat-1", Json.null, none, none⟩
      ⟨.user, [MessageContent.text "hi"]⟩).2 "chat-1" rfl).1 rfl rfl⟩

/-- C7: a request invocation whose incoming state is absent or fails to
deserialize returns an Error response through the ordinary Ok return (no
hard actor failure) and the persisted state becomes absent. -/
theorem C7_state_failure_resets (env : Nat → Except String Unit)
    (req : Except String GitChatRequest) :
    handle_request env none req
      = .ok { state := none, response := .Error "No state available", forwards := [] }
    ∧ ∀ e, handle_request env (some (.error e)) req
      = .ok { state := none
              response := .Error ("Failed to deserialize git state: " ++ e)
              forwards := [] } :=
  ⟨rfl, fun _ => rfl⟩

/-- C8: a request payload that fails to deserialize yields an Error
response through the ordinary Ok return while the state is re-persisted
unchanged, so chat_state_actor_id is untouched. -/
theorem C8_malformed_request_nonfatal (env : Nat → Except String Unit)
    (st : GitChatState) (e : String) :
    handle_request env (some (.ok st)) (.error e)
      = .ok { state := some st
              response := .Error ("Failed to parse request: " ++ e)
              forwards := [] } :=
  rfl

/-- Every successful handle_request invocation on a deserialized state
re-persists exactly that state: no request path mutates it. -/
theorem handle_request_state_preserved (env : Nat → Except String Unit)
    (st : GitChatState) (req : Except String GitChatRequest) :
    ∃ r, handle_request env (some (.ok st)) req = .ok r ∧ r.state = some st := by
  unfold handle_request
  repeat' split
  all_goals simp_all

/-- C6: init returns a state only after a successful spawn, storing the
spawned id in chat_state_actor_id; every request invocation on a
deserialized state re-persists that very state, so the field is never
cleared or changed; the send handler, given a persisted state whose
byte-array decoding fails (which holds for every serialized GitChatState,
a JSON object), returns an error and persists nothing new; supervisor and
channel handlers pass the state through unchanged; and consequently
GetChatStateActorId on the init-produced state answers with the spawned
id. -/
theorem C6_chat_state_actor_id_invariant :
    (∀ (input : Option (Except String GitAssistantConfig)) (self_id chatId : String),
       ∃ st, init (fun _ _ => Except.ok chatId) input self_id = .ok (some st)
         ∧ st.chat_state_actor_id = some chatId
         ∧ ∀ env, handle_request env (some (.ok st)) (.ok .GetChatStateActorId)
             = .ok { state := some st
                     response := .ChatStateActorId chatId
                     forwards := [] })
    ∧ (∀ (env : Nat → Except String Unit) (st : GitChatState)
         (req : Except String GitChatRequest),
       ∃ r, handle_request env (some (.ok st)) req = .ok r ∧ r.state = some st)
    ∧ (∀ (e : String) (p : List Nat → Except String Unit) (m : List Nat),
       handle_send (some (.error e)) p m
         = (false, .error ("Failed to deserialize state: " ++ e)))
    ∧ (∀ st cid err, handle_child_error st cid err = .ok st)
    ∧ (∀ st cid es, handle_child_exit st cid es = .ok st)
    ∧ (∀ st pr, handle_channel_open st pr
         = .ok (st, { accepted := true, message := none }))
    ∧ (∀ st cid, handle_channel_close st cid = .ok st)
    ∧ (∀ st pr, handle_channel_message st pr = .ok st) := by
  refine ⟨?_, handle_request_state_preserved, fun e p m => rfl,
    fun st cid err => rfl, fun st cid es => rfl, fun st pr => rfl,
    fun st cid => rfl, fun st pr => rfl⟩
  intro input self_id chatId
  rcases input with _ | pc
  · exact ⟨_, rfl, rfl, fun env => rfl⟩
  · cases pc with
    | ok c => exact ⟨_, rfl, rfl, fun env => rfl⟩
    | error e => exact ⟨_, rfl, rfl, fun env => rfl⟩

/-- C9: when the host spawn primitive fails, init fails with the wrapped
spawn error and returns no state at all: initialization aborts with no
retry and no degraded mode. -/
theorem C9_spawn_failure_fatal (spawnFn : String → Json → Except String String)
    (state : Option (Except String GitAssistantConfig)) (self_id e : String)
    (h : ∀ payload, spawnFn chatStateManifestPath payload = .error e) :
    init spawnFn state self_id
      = .error ("Failed to spawn chat state actor: " ++ ("Spawn failed: " ++ e)) := by
  rcases state with _ | pc
  · simp [init, spawn_chat_state_actor, h]
  · cases pc with
    | ok c => simp [init, spawn_chat_state_actor, h]
    | error e2 => simp [init, spawn_chat_state_actor, h]

/-- C9 witness: a host spawn that always fails with boom makes init fail
with the wrapped error. -/
theorem C9_spawn_failure_fatal_witness :
    init (fun _ _ => .error "boom") none "self-1"
      = .error ("Failed to spawn chat state actor: " ++ ("Spawn failed: " ++ "boom")) :=
  C9_spawn_failure_fatal (fun _ _ => .error "boom") none "self-1" "boom" (fun _ => rfl)

/-- C10: the send handler gives the same result for any two incoming
message payloads, since it never reads the message: it decodes the
persisted state bytes as a JSON byte array and those bytes as a
TaskComplete value, and whenever the state is absent or either decoding
fails it returns an error with no shutdown issued; only when both decodes
succeed does it request shutdown. -/
theorem C10_handle_send_message_independent
    (state : Option (Except String (List Nat)))
    (parseTaskComplete : List Nat → Except String Unit) (m1 m2 : List Nat) :
    handle_send state parseTaskComplete m1 = handle_send state parseTaskComplete m2
    ∧ handle_send none parseTaskComplete m1 = (false, .error "No state available")
    ∧ (∀ e, handle_send (some (.error e)) parseTaskComplete m1
        = (false, .error ("Failed to deserialize state: " ++ e)))
    ∧ (∀ inner e, parseTaskComplete inner = .error e →
        handle_send (some (.ok inner)) parseTaskComplete m1
          = (false, .error ("Failed to parse message: " ++ e)))
    ∧ (∀ inner, parseTaskComplete inner = .ok () →
        handle_send (some (.ok inner)) parseTaskComplete m1
          = (true, .ok (some inner))) := by
  refine ⟨rfl, rfl, fun e => rfl, ?_, ?_⟩
  · intro inner e hp
    simp [handle_send, hp]
  · intro inner hp
    simp [handle_send, hp]

/-- C10 witness: with a concrete decoder that rejects exactly the byte
list 110, the accepting and rejecting cases evaluate as stated. -/
theorem C10_handle_send_message_independent_witness :
    handle_send (some (.ok [0])) (fun l => if l = [110] then .error "bad" else .ok ()) [1]
      = (true, .ok (some [0]))
    ∧ handle_send (some (.ok [110])) (fun l => if l = [110] then .error "bad" else .ok ()) [1]
      = (false, .error ("Failed to parse message: " ++ "bad")) :=
  ⟨(C10_handle_send_message_independent (some (.ok [0]))
      (fun l => if l = [110] then .error "bad" else .ok ()) [1] [2]).2.2.2.2 [0] rfl,
   (C10_handle_send_message_independent (some (.ok [110]))
      (fun l => if l = [110] then .error "bad" else .ok ()) [1] [2]).2.2.2.1 [110] "bad" rfl⟩

/-- C4 evaluated at the failing input: the persisted state is a serialized
GitChatState, a JSON object, so its decoding as a byte array fails with a
serde type error; the incoming message payload is the serialization of
TaskComplete, and the decoder used here even accepts every payload; yet
the handler issues no shutdown (first component false) and returns an
error, because it parses the state instead of the message.  The claim
(and the spec) say this invocation must request shutdown of the actor. -/
theorem C4_task_complete_signal_not_read :
    handle_send (some (.error "invalid type: map, expected a sequence"))
        (fun _ => Except.ok ()) taskCompleteBytes
      = (false, .error ("Failed to deserialize state: "
            ++ "invalid type: map, expected a sequence")) :=
  rfl
